import Mathlib

/-!
Verification of the sqla-wrapper facade (src/sqla_wrapper/main.py).

The embedding models Python dicts as association lists with unique keys
(insertion order preserved, as in Python), and each method of the
`SQLAlchemy` class as a pure function on an explicit facade state.
Calls into the underlying ORM library (engine construction, the schema
DDL executor, the session constructor) are modelled as opaque
constructors or as the argument tuples delivered to them.
-/

set_option autoImplicit false

namespace SqlaWrapper

universe u v

/-- First-some combination of two options, used to state lookup laws
(the value of `a` when present, otherwise the value of `b`). -/
def firstSome {α : Type u} : Option α → Option α → Option α
  | some v, _ => some v
  | none, b => b

namespace AMap

variable {κ : Type u} {α β : Type v} [DecidableEq κ]

/-- Lookup in an association list: the value of the first entry whose key
matches, as Python dict subscripting does (keys are unique in a dict). -/
def find? : List (κ × α) → κ → Option α
  | [], _ => none
  | (k', v) :: t, k => if k' = k then some v else find? t k

/-- The key list of an association list, in order. -/
def keys (d : List (κ × α)) : List κ := d.map Prod.fst

/-- Removal of the entry of key `k`, modelling Python `dict.pop(k)` on a
dict (whose keys are unique). -/
def eraseKey (d : List (κ × α)) (k : κ) : List (κ × α) :=
  d.filter (fun kv => kv.1 ≠ k)

/-- Python `dict.setdefault(k, v)`: insert `k ↦ v` only when `k` is absent. -/
def setdefault (d : List (κ × α)) (k : κ) (v : α) : List (κ × α) :=
  if (find? d k).isSome then d else d ++ [(k, v)]

/-- Python `d[k] = v`: overwrite in place when the key exists, append
otherwise (insertion order of existing keys is preserved). -/
def set (d : List (κ × α)) (k : κ) (v : α) : List (κ × α) :=
  if (find? d k).isSome then
    d.map (fun kv => if kv.1 = k then (k, v) else kv)
  else d ++ [(k, v)]

/-- Python `d1.update(d2)`: assign every entry of `d2` into `d1` in order. -/
def update (d1 d2 : List (κ × α)) : List (κ × α) :=
  d2.foldl (fun acc kv => set acc kv.1 kv.2) d1

end AMap

/-- Error outcomes surfaced by the facade. `keyNotFoundError` models the
KeyError raised by a failed dict subscript (the spec calls that kind
KeyNotFoundError); `attributeError` models the AttributeError raised by
calling a method on None; `configurationError` and `unknownEngineError`
are the further error kinds named by the spec (the code under src/ never
produces `configurationError`). -/
inductive Err where
  | attributeError : Err
  | configurationError : Err
  | keyNotFoundError : String → Err
  | unknownEngineError : String → Err
deriving DecidableEq, Repr

/-- Python values appearing in option bags and keyword arguments: booleans,
strings, integers, and engine handles (an engine handle can be passed as
the `bind` keyword argument of the schema operations). -/
inductive Val where
  | bool : Bool → Val
  | str : String → Val
  | int : Int → Val
  | engineV : String → List (String × Val) → Val

/-- An engine handle, the opaque result of `sa.create_engine(uri, opts)`
(src/sqla_wrapper/main.py line 83): determined by the connection URI and
the engine options it was created with. -/
structure Engine where
  uri : String
  opts : List (String × Val)

/-- Delegated `sa.create_engine`: an opaque constructor of engine handles. -/
def Engine.create (uri : String) (opts : List (String × Val)) : Engine :=
  ⟨uri, opts⟩

/-- An engine handle viewed as a Python value (for keyword arguments). -/
def Val.ofEngine (e : Engine) : Val := .engineV e.uri e.opts

/-- The loop of `_set_session_options` (src/sqla_wrapper/main.py lines
93 to 95): for each constructor keyword of the underlying Session class,
if it occurs in the options bag, pop it from the bag into the session
options. -/
def popLoop : List String → List (String × Val) → List (String × Val) →
    List (String × Val) × List (String × Val)
  | [], sess, rest => (sess, rest)
  | arg :: t, sess, rest =>
      match AMap.find? rest arg with
      | some v => popLoop t (sess ++ [(arg, v)]) (AMap.eraseKey rest arg)
      | none => popLoop t sess rest

/-- `SQLAlchemy._set_session_options` (src/sqla_wrapper/main.py lines 90
to 102), parameterised by `get_cls_kwargs(Session)`, the externally
computed list of keywords accepted by the underlying Session constructor.
Returns the pair (session options, engine options). -/
def setSessionOptions (sessionCtorKwargs : List String)
    (options : List (String × Val)) :
    List (String × Val) × List (String × Val) :=
  let p := popLoop sessionCtorKwargs [] options
  let engine_options := AMap.setdefault p.2 "echo" (Val.bool false)
  let session_options :=
    AMap.setdefault (AMap.setdefault p.1 "autoflush" (Val.bool true))
      "autocommit" (Val.bool false)
  (session_options, engine_options)

/-- A routed session as produced by the session factory: it records the
factory options it was constructed with and its pending unit of work. -/
structure RSession where
  opts : List (String × Val)
  pending : List Val

/-- The state of a `SQLAlchemy` facade object after construction: the
databases mapping, the engine registry, the stored option sets, the
options currently configured on the session factory, and the scope-keyed
session cache of the scoped session. -/
structure Facade where
  databases : List (String × String)
  engines : List (String × Engine)
  session_options : List (String × Val)
  engine_options : List (String × Val)
  factory_options : List (String × Val)
  cache : List (Nat × RSession)

/-- The body of `SQLAlchemy.__init__` once the databases mapping is in
hand (src/sqla_wrapper/main.py lines 79 to 88): split the options, create
one engine per entry of the mapping, and configure the session factory
with the session options. Model-base construction and the attribute
re-export are delegated and carry no facade state modelled here. -/
def mkFacade (sessionCtorKwargs : List String) (dbs : List (String × String))
    (options : List (String × Val)) : Facade :=
  let so := setSessionOptions sessionCtorKwargs options
  { databases := dbs
    engines := dbs.map (fun kv => (kv.1, Engine.create kv.2 so.2))
    session_options := so.1
    engine_options := so.2
    factory_options := so.1
    cache := [] }

/-- `SQLAlchemy.__init__` (src/sqla_wrapper/main.py lines 69 to 88). The
`databases` parameter defaults to None; when it is None, the dict
comprehension `self.databases.items()` on line 83 raises AttributeError.
No validation of the mapping is performed: any dict, the empty one
included, is accepted. -/
def SQLAlchemy.init (sessionCtorKwargs : List String)
    (databases : Option (List (String × String)))
    (options : List (String × Val)) : Except Err Facade :=
  match databases with
  | none => .error .attributeError
  | some dbs => .ok (mkFacade sessionCtorKwargs dbs options)

/-- `SQLAlchemy.create_all` (src/sqla_wrapper/main.py lines 118 to 122):
look the engine up by name (a failed subscript raises), install it as the
default of the `bind` keyword argument, and hand the arguments to the
delegated `Model.metadata.create_all`. The result is the argument tuple
delivered to that executor, paired with the facade state after the call
(the method assigns no attribute of self). -/
def SQLAlchemy.create_all (f : Facade) (engine : String) (args : List Val)
    (kwargs : List (String × Val)) :
    Except Err (List Val × List (String × Val)) × Facade :=
  match AMap.find? f.engines engine with
  | none => (.error (.keyNotFoundError engine), f)
  | some e => (.ok (args, AMap.setdefault kwargs "bind" (Val.ofEngine e)), f)

/-- `SQLAlchemy.drop_all` (src/sqla_wrapper/main.py lines 124 to 128):
same shape as `create_all`, delivering to `Model.metadata.drop_all`. -/
def SQLAlchemy.drop_all (f : Facade) (engine : String) (args : List Val)
    (kwargs : List (String × Val)) :
    Except Err (List Val × List (String × Val)) × Facade :=
  match AMap.find? f.engines engine with
  | none => (.error (.keyNotFoundError engine), f)
  | some e => (.ok (args, AMap.setdefault kwargs "bind" (Val.ofEngine e)), f)

/-- A call of `create_all` with the engine name omitted: the parameter
default `engine='default'` applies. -/
def SQLAlchemy.create_all_default (f : Facade) (args : List Val)
    (kwargs : List (String × Val)) :
    Except Err (List Val × List (String × Val)) × Facade :=
  SQLAlchemy.create_all f "default" args kwargs

/-- A call of `drop_all` with the engine name omitted: the parameter
default `engine='default'` applies. -/
def SQLAlchemy.drop_all_default (f : Facade) (args : List Val)
    (kwargs : List (String × Val)) :
    Except Err (List Val × List (String × Val)) × Facade :=
  SQLAlchemy.drop_all f "default" args kwargs

/-- Delegated `scoped_session.remove()` for the calling scope: the cached
session of the scope is closed and evicted from the registry. -/
def Scoped.remove (f : Facade) (scope : Nat) : Facade :=
  { f with cache := AMap.eraseKey f.cache scope }

/-- Delegated `scoped_session.__call__`: return the session cached for the
scope, creating one from the session factory with its currently configured
options when none is cached. -/
def Scoped.getOrCreate (f : Facade) (scope : Nat) : RSession × Facade :=
  match AMap.find? f.cache scope with
  | some s => (s, f)
  | none =>
      let s : RSession := { opts := f.factory_options, pending := [] }
      (s, { f with cache := f.cache ++ [(scope, s)] })

/-- `SQLAlchemy.reconfigure` (src/sqla_wrapper/main.py lines 130 to 134):
remove the current session of the calling scope, update the stored session
options with the keyword arguments, and configure the session factory with
the updated set. -/
def SQLAlchemy.reconfigure (f : Facade) (scope : Nat)
    (kwargs : List (String × Val)) : Facade :=
  let f1 := Scoped.remove f scope
  let so := AMap.update f1.session_options kwargs
  { f1 with session_options := so, factory_options := so }

/-- Modelled from the spec: `db.remove()` of the session proxy
(src/sqla_wrapper/session_proxy.py is not under src/) forwards to
`scoped_session.remove()` for the calling scope. -/
def SQLAlchemy.remove (f : Facade) (scope : Nat) : Facade :=
  Scoped.remove f scope

/-- Modelled from the spec: `db.add(obj)` of the session proxy
(src/sqla_wrapper/session_proxy.py is not under src/) forwards to the
scoped session, recording the object in its pending unit of work. -/
def SQLAlchemy.add (f : Facade) (scope : Nat) (obj : Val) : Facade :=
  let p := Scoped.getOrCreate f scope
  { p.2 with
    cache := AMap.set p.2.cache scope
      { p.1 with pending := p.1.pending ++ [obj] } }

/-- Modelled from the spec: `db.commit()` of the session proxy
(src/sqla_wrapper/session_proxy.py is not under src/) forwards to the
scoped session, flushing its pending unit of work. -/
def SQLAlchemy.commit (f : Facade) (scope : Nat) : Facade :=
  let p := Scoped.getOrCreate f scope
  { p.2 with cache := AMap.set p.2.cache scope { p.1 with pending := [] } }

/-- The kind of a pending SQL operation, as the Routing Policy sees it. -/
inductive Op where
  | read : Op
  | write : Op
deriving DecidableEq

/-- The engine registered under the well-known default name, or the
KeyNotFoundError of a failed registry lookup. -/
def defaultEngine (engines : List (String × Engine)) : Except Err Engine :=
  match AMap.find? engines "default" with
  | some e => .ok e
  | none => .error (.keyNotFoundError "default")

/-- Modelled from the spec: the decision function of the Routing Policy
(`get_routing_class`, src/sqla_wrapper/routing.py is not under src/),
following spec section 4.2. Step 1: an explicit bind hint naming an engine
is used, failing with UnknownEngineError when absent from the registry.
Step 2: a write, a flush, or a read issued while the unit of work has
pending unflushed writes routes to the default name (read-your-own-writes).
Step 3: a plain read prefers the configured read mapping when one exists,
otherwise the default name. -/
def RoutingPolicy.get_bind (engines : List (String × Engine))
    (readMapping : Option String) (hint : Option String) (op : Op)
    (pendingWrites : Bool) : Except Err Engine :=
  match hint with
  | some name =>
      match AMap.find? engines name with
      | some e => .ok e
      | none => .error (.unknownEngineError name)
  | none =>
      if op = .write ∨ pendingWrites then defaultEngine engines
      else
        match readMapping with
        | some r =>
            match AMap.find? engines r with
            | some e => .ok e
            | none => .error (.keyNotFoundError r)
        | none => defaultEngine engines

/-! ### Lemmas about the dict model -/

@[simp] theorem firstSome_some {α : Type u} (v : α) (b : Option α) :
    firstSome (some v) b = some v := rfl

@[simp] theorem firstSome_none {α : Type u} (b : Option α) :
    firstSome none b = b := rfl

@[simp] theorem firstSome_none_right {α : Type u} (a : Option α) :
    firstSome a none = a := by cases a <;> rfl

namespace AMap

variable {κ : Type u} {α β : Type v} [DecidableEq κ]

@[simp] theorem find?_nil (k : κ) : find? ([] : List (κ × α)) k = none := rfl

@[simp] theorem find?_cons (k' : κ) (v : α) (t : List (κ × α)) (k : κ) :
    find? ((k', v) :: t) k = if k' = k then some v else find? t k := rfl

theorem find?_append (d1 d2 : List (κ × α)) (k : κ) :
    find? (d1 ++ d2) k = firstSome (find? d1 k) (find? d2 k) := by
  induction d1 with
  | nil => simp
  | cons kv t ih =>
    obtain ⟨k', v⟩ := kv
    by_cases h : k' = k <;> simp [h, ih]

theorem find?_eraseKey (d : List (κ × α)) (k k' : κ) :
    find? (eraseKey d k) k' = if k' = k then none else find? d k' := by
  induction d with
  | nil => simp [eraseKey]
  | cons kv t ih =>
    obtain ⟨k₀, v⟩ := kv
    by_cases hk : k₀ = k
    · subst hk
      by_cases h' : k₀ = k' <;> simp_all [eraseKey]
    · by_cases h' : k₀ = k' <;> simp_all [eraseKey]

theorem find?_eq_none_of_not_mem_keys {d : List (κ × α)} {k : κ}
    (h : k ∉ keys d) : find? d k = none := by
  induction d with
  | nil => rfl
  | cons kv t ih =>
    obtain ⟨k₀, v₀⟩ := kv
    simp only [keys, List.map_cons, List.mem_cons, not_or] at h
    have hne : ¬ k₀ = k := fun hc => h.1 hc.symm
    simp only [find?_cons, hne, if_false]
    exact ih h.2

theorem find?_setdefault (d : List (κ × α)) (k : κ) (v : α) (k' : κ) :
    find? (setdefault d k v) k'
      = firstSome (find? d k') (if k' = k then some v else none) := by
  rw [setdefault]
  by_cases h : (find? d k).isSome
  · rw [if_pos h]
    by_cases hk : k' = k
    · subst hk
      obtain ⟨w, hw⟩ := Option.isSome_iff_exists.mp h
      simp [hw]
    · simp [hk]
  · rw [if_neg h, find?_append]
    have h1 : find? [(k, v)] k' = if k' = k then some v else none := by
      by_cases hk : k' = k
      · subst hk
        simp [find?]
      · have hkk : ¬ k = k' := fun hc => hk hc.symm
        simp [find?, hkk, hk]
    rw [h1]

theorem find?_mapReplace_ne (t : List (κ × α)) (k : κ) (v : α) (k' : κ)
    (hk : k' ≠ k) :
    find? (t.map (fun kv => if kv.1 = k then (k, v) else kv)) k'
      = find? t k' := by
  induction t with
  | nil => simp
  | cons kv t ih =>
    obtain ⟨k₀, v₀⟩ := kv
    by_cases hk₀ : k₀ = k
    · subst hk₀
      have hne : ¬ k₀ = k' := fun hc => hk hc.symm
      simp [hne, ih]
    · by_cases h' : k₀ = k' <;> simp [hk₀, h', hk, ih]

theorem find?_mapReplace_eq (t : List (κ × α)) (k : κ) (v : α)
    (h : (find? t k).isSome) :
    find? (t.map (fun kv => if kv.1 = k then (k, v) else kv)) k = some v := by
  induction t with
  | nil => simp at h
  | cons kv t ih =>
    obtain ⟨k₀, v₀⟩ := kv
    by_cases hk₀ : k₀ = k
    · subst hk₀
      simp
    · simp only [find?_cons, hk₀, if_false] at h
      simp [hk₀, ih h]

theorem find?_set (d : List (κ × α)) (k : κ) (v : α) (k' : κ) :
    find? (set d k v) k' = if k' = k then some v else find? d k' := by
  rw [set]
  by_cases h : (find? d k).isSome
  · rw [if_pos h]
    by_cases hk : k' = k
    · rw [if_pos hk, hk]
      exact find?_mapReplace_eq d k v h
    · rw [if_neg hk]
      exact find?_mapReplace_ne d k v k' hk
  · rw [if_neg h, find?_append]
    by_cases hk : k' = k
    · subst hk
      rw [Option.not_isSome_iff_eq_none.mp h]
      simp [find?]
    · have hkk : ¬ k = k' := fun hc => hk hc.symm
      simp [find?, hkk, hk]

theorem find?_update (d1 d2 : List (κ × α)) (hN : (keys d2).Nodup) (k : κ) :
    find? (update d1 d2) k = firstSome (find? d2 k) (find? d1 k) := by
  induction d2 generalizing d1 with
  | nil => simp [update]
  | cons kv t ih =>
    obtain ⟨k₀, v₀⟩ := kv
    simp only [keys, List.map_cons, List.nodup_cons] at hN
    simp only [update, List.foldl_cons]
    have hrec := ih (set d1 k₀ v₀) hN.2
    simp only [update] at hrec
    rw [hrec]
    by_cases hk : k₀ = k
    · subst hk
      have htk : find? t k₀ = none := find?_eq_none_of_not_mem_keys hN.1
      simp [htk, find?_set]
    · have hk' : ¬ k = k₀ := fun hc => hk hc.symm
      simp [find?_set, hk, hk']

theorem find?_mapVal (g : α → β) (d : List (κ × α)) (k : κ) :
    find? (d.map (fun kv => (kv.1, g kv.2))) k = (find? d k).map g := by
  induction d with
  | nil => simp
  | cons kv t ih =>
    obtain ⟨k₀, v₀⟩ := kv
    by_cases h : k₀ = k <;> simp [h, ih]

theorem find?_mem {d : List (κ × α)} {k : κ} {v : α} (h : find? d k = some v) :
    (k, v) ∈ d := by
  induction d with
  | nil => simp [find?] at h
  | cons kv t ih =>
    obtain ⟨k₀, v₀⟩ := kv
    by_cases hk : k₀ = k
    · subst hk
      simp only [find?_cons, if_true] at h
      simp only [Option.some.injEq] at h
      simp [h]
    · simp only [find?_cons, hk, if_false] at h
      exact List.mem_cons_of_mem _ (ih h)

theorem find?_filterKey (q : κ → Prop) [DecidablePred q] (d : List (κ × α)) (k : κ) :
    find? (d.filter (fun kv => q kv.1)) k
      = if q k then find? d k else none := by
  induction d with
  | nil => simp
  | cons kv t ih =>
    obtain ⟨k₀, v₀⟩ := kv
    by_cases hq : q k₀
    · by_cases hk : k₀ = k
      · subst hk
        simp [hq, ih]
      · simp [hq, hk, ih]
    · by_cases hk : k₀ = k
      · subst hk
        simp [hq, ih]
      · simp [hq, hk, ih]

theorem not_mem_of_find?_eq_none {d : List (κ × α)} {k : κ}
    (h : find? d k = none) : ∀ kv ∈ d, kv.1 ≠ k := by
  induction d with
  | nil => intro kv hm; simp at hm
  | cons kv₀ t ih =>
    obtain ⟨k₀, v₀⟩ := kv₀
    intro kv hm
    by_cases hk₀ : k₀ = k
    · rw [find?_cons, if_pos hk₀] at h
      exact absurd h (by simp)
    · rw [find?_cons, if_neg hk₀] at h
      rcases List.mem_cons.mp hm with h1 | h1
      · subst h1
        exact hk₀
      · exact ih h kv h1

theorem setdefault_of_find?_eq_some {d : List (κ × α)} {k : κ} {b : α}
    (h : find? d k = some b) (v : α) : setdefault d k v = d := by
  simp [setdefault, h]

end AMap

/-! ### Characterisation of the option split -/

theorem popLoop_snd (kwargs : List String) :
    ∀ sess rest : List (String × Val),
    (popLoop kwargs sess rest).2
      = rest.filter (fun kv => kv.1 ∉ kwargs) := by
  induction kwargs with
  | nil => intro sess rest; simp [popLoop]
  | cons a t ih =>
    intro sess rest
    rw [popLoop]
    cases hfa : AMap.find? rest a with
    | some v =>
        rw [ih, AMap.eraseKey, List.filter_filter]
        apply List.filter_congr
        intro kv _
        by_cases h1 : kv.1 = a <;> by_cases h2 : kv.1 ∈ t <;>
          simp [h1, h2]
    | none =>
        rw [ih]
        apply List.filter_congr
        intro kv hm
        have hne := AMap.not_mem_of_find?_eq_none hfa kv hm
        simp [hne, List.mem_cons]

theorem popLoop_fst_find? (kwargs : List String) :
    ∀ (sess rest : List (String × Val)) (k : String),
    AMap.find? (popLoop kwargs sess rest).1 k
      = firstSome (AMap.find? sess k)
          (if k ∈ kwargs then AMap.find? rest k else none) := by
  induction kwargs with
  | nil => intro sess rest k; simp [popLoop]
  | cons a t ih =>
    intro sess rest k
    rw [popLoop]
    cases hfa : AMap.find? rest a with
    | some v =>
        rw [ih]
        rw [AMap.find?_append, AMap.find?_eraseKey]
        cases hs : AMap.find? sess k with
        | some w => simp
        | none =>
            simp only [firstSome_none]
            by_cases hk : k = a
            · subst hk
              simp [AMap.find?, hfa]
            · have hak : ¬ a = k := fun hc => hk hc.symm
              simp only [AMap.find?, hak, if_false, AMap.find?_nil]
              by_cases ht : k ∈ t <;>
                simp [ht, hk, List.mem_cons]
    | none =>
        rw [ih]
        cases hs : AMap.find? sess k with
        | some w => simp
        | none =>
            simp only [firstSome_none]
            by_cases hk : k = a
            · subst hk
              by_cases ht : k ∈ t <;> simp [ht, hfa, List.mem_cons]
            · by_cases ht : k ∈ t <;> simp [ht, hk, List.mem_cons]

theorem setSessionOptions_fst_find? (skw : List String)
    (options : List (String × Val)) (k : String) :
    AMap.find? (setSessionOptions skw options).1 k
      = firstSome
          (firstSome (if k ∈ skw then AMap.find? options k else none)
            (if k = "autoflush" then some (Val.bool true) else none))
          (if k = "autocommit" then some (Val.bool false) else none) := by
  simp only [setSessionOptions]
  rw [AMap.find?_setdefault, AMap.find?_setdefault, popLoop_fst_find?]
  simp

theorem find?_filter_not_mem (skw : List String)
    (options : List (String × Val)) (k : String) :
    AMap.find? (options.filter (fun kv => kv.1 ∉ skw)) k
      = if k ∈ skw then none else AMap.find? options k := by
  induction options with
  | nil => simp
  | cons kv t ih =>
    obtain ⟨k₀, v₀⟩ := kv
    by_cases h0 : k₀ ∈ skw
    · by_cases hk : k₀ = k
      · subst hk
        simp [h0] at ih ⊢
        exact ih
      · simp [h0, hk] at ih ⊢
        exact ih
    · by_cases hk : k₀ = k
      · subst hk
        simp [h0]
      · simp [h0, hk] at ih ⊢
        exact ih

theorem setSessionOptions_snd_find? (skw : List String)
    (options : List (String × Val)) (k : String) :
    AMap.find? (setSessionOptions skw options).2 k
      = firstSome (if k ∈ skw then none else AMap.find? options k)
          (if k = "echo" then some (Val.bool false) else none) := by
  simp only [setSessionOptions]
  rw [AMap.find?_setdefault, popLoop_snd, find?_filter_not_mem]


/-! ### Claim theorems -/

/-- Claim C1, counterexample: constructing the facade with an empty
databases mapping does not fail with a ConfigurationError (it does not
fail at all), and constructing with no mapping fails with AttributeError,
not ConfigurationError. -/
theorem c1_counterexample :
    SQLAlchemy.init [] (some []) [] = .ok (mkFacade [] [] []) ∧
    SQLAlchemy.init [] none [] = .error .attributeError ∧
    Err.attributeError ≠ Err.configurationError := by
  refine ⟨rfl, rfl, ?_⟩
  decide

/-- Claim C1 (amended): constructing the facade with no databases mapping
fails with an AttributeError (None has no items method), not a
ConfigurationError; for every mapping of name to URI, the empty one
included, construction succeeds; no construction fails with a
ConfigurationError. -/
theorem c1_no_configuration_error (skw : List String)
    (databases : Option (List (String × String)))
    (options : List (String × Val)) :
    SQLAlchemy.init skw databases options
      = (match databases with
         | none => Except.error Err.attributeError
         | some dbs => Except.ok (mkFacade skw dbs options)) ∧
    SQLAlchemy.init skw databases options ≠ .error .configurationError := by
  cases databases <;> simp [SQLAlchemy.init]

/-- Claim C2: a read operation issued with no explicit bind hint on a
session whose unit of work has pending writes not yet flushed is routed to
the engine registered under the default name, whatever read mapping is
configured (read-your-own-writes within one unit of work). -/
theorem c2_read_your_own_writes (engines : List (String × Engine))
    (readMapping : Option String) :
    RoutingPolicy.get_bind engines readMapping none .read true
      = defaultEngine engines := by
  simp [RoutingPolicy.get_bind]

/-- Claim C3: calling `create_all` or `drop_all` with an engine name that
is not a key of the registry fails with the KeyNotFoundError naming that
engine, surfaced as the result of the call; with a registered name neither
operation fails, both delivering the arguments to the schema DDL
executor. -/
theorem c3_schema_ops_unknown_engine (f : Facade) (name : String)
    (args : List Val) (kwargs : List (String × Val)) :
    (AMap.find? f.engines name = none →
      (SQLAlchemy.create_all f name args kwargs).1
        = .error (.keyNotFoundError name) ∧
      (SQLAlchemy.drop_all f name args kwargs).1
        = .error (.keyNotFoundError name)) ∧
    (∀ e, AMap.find? f.engines name = some e →
      (SQLAlchemy.create_all f name args kwargs).1
        = .ok (args, AMap.setdefault kwargs "bind" (Val.ofEngine e)) ∧
      (SQLAlchemy.drop_all f name args kwargs).1
        = .ok (args, AMap.setdefault kwargs "bind" (Val.ofEngine e))) := by
  constructor
  · intro h
    constructor <;> simp [SQLAlchemy.create_all, SQLAlchemy.drop_all, h]
  · intro e h
    constructor <;> simp [SQLAlchemy.create_all, SQLAlchemy.drop_all, h]

/-- Witness for C3 at a concrete registry: the name replica is not
registered, so `create_all` fails with the KeyNotFoundError naming it. -/
theorem c3_witness :
    (SQLAlchemy.create_all (mkFacade [] [("default", "u")] [])
        "replica" [] []).1 = .error (.keyNotFoundError "replica") ∧
    (SQLAlchemy.drop_all (mkFacade [] [("default", "u")] [])
        "replica" [] []).1 = .error (.keyNotFoundError "replica") :=
  (c3_schema_ops_unknown_engine (mkFacade [] [("default", "u")] [])
    "replica" [] []).1 rfl

/-- Claim C6: construction creates exactly one engine per entry of the
databases mapping, eagerly: the key list of the registry equals the key
list of the mapping, and looking up a configured name returns the handle
created from the URI supplied for that name together with the shared
engine options. -/
theorem c6_engines_eager (skw : List String) (dbs : List (String × String))
    (options : List (String × Val)) :
    AMap.keys (mkFacade skw dbs options).engines = AMap.keys dbs ∧
    (∀ n uri, AMap.find? dbs n = some uri →
      AMap.find? (mkFacade skw dbs options).engines n
        = some (Engine.create uri (mkFacade skw dbs options).engine_options)) := by
  constructor
  · simp [mkFacade, AMap.keys, List.map_map]
  · intro n uri h
    have hm := AMap.find?_mapVal
      (fun u => Engine.create u (setSessionOptions skw options).2) dbs n
    simp only [mkFacade]
    rw [hm, h]
    rfl

/-- Witness for C6 at a concrete mapping with two entries. -/
theorem c6_witness :
    AMap.find? (mkFacade [] [("default", "a"), ("replica", "b")] []).engines
        "replica"
      = some (Engine.create "b"
          (mkFacade [] [("default", "a"), ("replica", "b")] []).engine_options) :=
  (c6_engines_eager [] [("default", "a"), ("replica", "b")] []).2
    "replica" "b" rfl

/-- Claim C7: a `create_all` or `drop_all` call with the engine name
omitted uses the parameter default, selecting the engine registered under
the name default, and the argument tuple delivered to the schema DDL
executor keeps every positional argument and every caller-supplied keyword
argument unchanged (the selected engine is only installed as the default
of the bind keyword). -/
theorem c7_default_engine_selected (f : Facade) (e : Engine)
    (args : List Val) (kwargs : List (String × Val))
    (h : AMap.find? f.engines "default" = some e) :
    (SQLAlchemy.create_all_default f args kwargs).1
      = .ok (args, AMap.setdefault kwargs "bind" (Val.ofEngine e)) ∧
    (SQLAlchemy.drop_all_default f args kwargs).1
      = .ok (args, AMap.setdefault kwargs "bind" (Val.ofEngine e)) ∧
    (∀ k v, AMap.find? kwargs k = some v →
      AMap.find? (AMap.setdefault kwargs "bind" (Val.ofEngine e)) k
        = some v) := by
  refine ⟨?_, ?_, ?_⟩
  · simp [SQLAlchemy.create_all_default, SQLAlchemy.create_all, h]
  · simp [SQLAlchemy.drop_all_default, SQLAlchemy.drop_all, h]
  · intro k v hv
    rw [AMap.find?_setdefault, hv]
    rfl

/-- Witness for C7 at a concrete facade holding one default engine. -/
theorem c7_witness :
    (SQLAlchemy.create_all_default (mkFacade [] [("default", "u")] [])
        [] []).1
      = .ok ([], AMap.setdefault [] "bind"
          (Val.ofEngine (Engine.create "u" [("echo", Val.bool false)]))) :=
  (c7_default_engine_selected (mkFacade [] [("default", "u")] [])
    (Engine.create "u" [("echo", Val.bool false)]) [] [] rfl).1

/-- Claim C8: the engine registry is read-only after construction: none of
the public facade operations (the schema operations, `reconfigure`, and
the session passthroughs remove, session creation, add, commit) changes
the engines mapping or the databases mapping of the facade state. -/
theorem c8_registry_read_only (f : Facade) (scope : Nat) (name : String)
    (args : List Val) (kwargs opts : List (String × Val)) (obj : Val) :
    ((SQLAlchemy.create_all f name args kwargs).2.engines = f.engines ∧
     (SQLAlchemy.create_all f name args kwargs).2.databases = f.databases) ∧
    ((SQLAlchemy.drop_all f name args kwargs).2.engines = f.engines ∧
     (SQLAlchemy.drop_all f name args kwargs).2.databases = f.databases) ∧
    ((SQLAlchemy.reconfigure f scope opts).engines = f.engines ∧
     (SQLAlchemy.reconfigure f scope opts).databases = f.databases) ∧
    ((SQLAlchemy.remove f scope).engines = f.engines ∧
     (SQLAlchemy.remove f scope).databases = f.databases) ∧
    ((Scoped.getOrCreate f scope).2.engines = f.engines ∧
     (Scoped.getOrCreate f scope).2.databases = f.databases) ∧
    ((SQLAlchemy.add f scope obj).engines = f.engines ∧
     (SQLAlchemy.add f scope obj).databases = f.databases) ∧
    ((SQLAlchemy.commit f scope).engines = f.engines ∧
     (SQLAlchemy.commit f scope).databases = f.databases) := by
  refine ⟨?_, ?_, ?_, ?_, ?_, ?_, ?_⟩
  · cases hfa : AMap.find? f.engines name <;>
      simp [SQLAlchemy.create_all, hfa]
  · cases hfa : AMap.find? f.engines name <;>
      simp [SQLAlchemy.drop_all, hfa]
  · simp [SQLAlchemy.reconfigure, Scoped.remove]
  · simp [SQLAlchemy.remove, Scoped.remove]
  · cases hc : AMap.find? f.cache scope <;>
      simp [Scoped.getOrCreate, hc]
  · cases hc : AMap.find? f.cache scope <;>
      simp [SQLAlchemy.add, Scoped.getOrCreate, hc]
  · cases hc : AMap.find? f.cache scope <;>
      simp [SQLAlchemy.commit, Scoped.getOrCreate, hc]

/-- Claim C10: in `create_all` and `drop_all` the engine name is looked up
before the bind keyword is defaulted, so an unregistered name fails with
KeyNotFoundError even when the caller passes an explicit bind; and when
the name is registered and the caller did pass a bind, the keyword
arguments reach the schema DDL executor unchanged: the caller-supplied
bind wins over the looked-up engine. -/
theorem c10_bind_defaulting (f : Facade) (name : String) (args : List Val)
    (kwargs : List (String × Val)) :
    (∀ b, AMap.find? kwargs "bind" = some b →
      AMap.find? f.engines name = none →
      (SQLAlchemy.create_all f name args kwargs).1
        = .error (.keyNotFoundError name) ∧
      (SQLAlchemy.drop_all f name args kwargs).1
        = .error (.keyNotFoundError name)) ∧
    (∀ e b, AMap.find? f.engines name = some e →
      AMap.find? kwargs "bind" = some b →
      (SQLAlchemy.create_all f name args kwargs).1 = .ok (args, kwargs) ∧
      (SQLAlchemy.drop_all f name args kwargs).1 = .ok (args, kwargs)) := by
  constructor
  · intro b hb h
    constructor <;> simp [SQLAlchemy.create_all, SQLAlchemy.drop_all, h]
  · intro e b he hb
    have hsd := AMap.setdefault_of_find?_eq_some hb (Val.ofEngine e)
    constructor <;>
      simp [SQLAlchemy.create_all, SQLAlchemy.drop_all, he, hsd]

/-- Witness for C10: with an explicit bind and an unregistered name the
call still fails, and with the default name registered the explicit bind
survives unchanged. -/
theorem c10_witness :
    (SQLAlchemy.create_all (mkFacade [] [("default", "u")] []) "replica"
        [] [("bind", Val.str "b")]).1
      = .error (.keyNotFoundError "replica") ∧
    (SQLAlchemy.create_all (mkFacade [] [("default", "u")] []) "default"
        [] [("bind", Val.str "b")]).1
      = .ok ([], [("bind", Val.str "b")]) :=
  ⟨((c10_bind_defaulting (mkFacade [] [("default", "u")] []) "replica"
      [] [("bind", Val.str "b")]).1 (Val.str "b") rfl rfl).1,
   ((c10_bind_defaulting (mkFacade [] [("default", "u")] []) "default"
      [] [("bind", Val.str "b")]).2
      (Engine.create "u" [("echo", Val.bool false)]) (Val.str "b")
      rfl rfl).1⟩


/-- Claim C4: every key of the options bag accepted by the underlying
session constructor goes to the session option set, every other key goes
to the engine option set, the engine option set gets the default
echo=false when echo was not supplied, and no key ends up in both sets.
The hypotheses record facts about `get_cls_kwargs(Session)`: it contains
autoflush and autocommit and does not contain echo. -/
theorem c4_options_split (skw : List String) (options : List (String × Val))
    (hecho : "echo" ∉ skw)
    (haf : "autoflush" ∈ skw) (hac : "autocommit" ∈ skw) :
    (∀ k v, AMap.find? options k = some v →
      ((k ∈ skw → AMap.find? (setSessionOptions skw options).1 k = some v) ∧
       (k ∉ skw → AMap.find? (setSessionOptions skw options).2 k = some v))) ∧
    (AMap.find? options "echo" = none →
      AMap.find? (setSessionOptions skw options).2 "echo"
        = some (Val.bool false)) ∧
    (∀ k, (AMap.find? (setSessionOptions skw options).1 k).isSome →
      (AMap.find? (setSessionOptions skw options).2 k).isSome → False) := by
  refine ⟨?_, ?_, ?_⟩
  · intro k v hv
    constructor
    · intro hin
      rw [setSessionOptions_fst_find?]
      simp [hin, hv]
    · intro hout
      rw [setSessionOptions_snd_find?]
      simp [hout, hv]
  · intro h
    rw [setSessionOptions_snd_find?]
    simp [hecho, h]
  · intro k h1 h2
    rw [setSessionOptions_fst_find?] at h1
    rw [setSessionOptions_snd_find?] at h2
    by_cases hin : k ∈ skw
    · simp only [hin, if_pos] at h2
      simp only [firstSome_none] at h2
      by_cases he : k = "echo"
      · exact hecho (he ▸ hin)
      · simp [he] at h2
    · simp only [hin, if_neg, if_false] at h1
      simp only [firstSome_none] at h1
      by_cases h3 : k = "autoflush"
      · exact hin (h3.symm ▸ haf)
      by_cases h4 : k = "autocommit"
      · exact hin (h4.symm ▸ hac)
      simp [h3, h4] at h1

/-- Witness for C4 at a concrete session keyword list and options bag:
autocommit lands in the session set, pool_size in the engine set. -/
theorem c4_witness :
    AMap.find? (setSessionOptions ["bind", "autoflush", "autocommit"]
        [("autocommit", Val.bool true), ("pool_size", Val.int 5)]).1
        "autocommit" = some (Val.bool true) ∧
    AMap.find? (setSessionOptions ["bind", "autoflush", "autocommit"]
        [("autocommit", Val.bool true), ("pool_size", Val.int 5)]).2
        "pool_size" = some (Val.int 5) :=
  ⟨((c4_options_split ["bind", "autoflush", "autocommit"]
      [("autocommit", Val.bool true), ("pool_size", Val.int 5)]
      (by decide) (by decide) (by decide)).1 "autocommit"
      (Val.bool true) rfl).1 (by decide),
   ((c4_options_split ["bind", "autoflush", "autocommit"]
      [("autocommit", Val.bool true), ("pool_size", Val.int 5)]
      (by decide) (by decide) (by decide)).1 "pool_size"
      (Val.int 5) rfl).2 (by decide)⟩

/-- Claim C5: `reconfigure(**options)` removes the session cached for the
calling scope, merges the options into the stored session option set with
the new values overriding stored ones on key collision, and configures the
session factory with the merged set, so that every session subsequently
created for a scope without a cached session carries the merged set. -/
theorem c5_reconfigure_merges (f : Facade) (scope : Nat)
    (opts : List (String × Val)) (hN : (AMap.keys opts).Nodup) :
    AMap.find? (SQLAlchemy.reconfigure f scope opts).cache scope = none ∧
    (∀ k, AMap.find? (SQLAlchemy.reconfigure f scope opts).session_options k
        = firstSome (AMap.find? opts k)
            (AMap.find? f.session_options k)) ∧
    (SQLAlchemy.reconfigure f scope opts).factory_options
      = (SQLAlchemy.reconfigure f scope opts).session_options ∧
    (∀ sc, AMap.find? (SQLAlchemy.reconfigure f scope opts).cache sc = none →
      (Scoped.getOrCreate (SQLAlchemy.reconfigure f scope opts) sc).1.opts
        = (SQLAlchemy.reconfigure f scope opts).session_options) := by
  refine ⟨?_, ?_, rfl, ?_⟩
  · simp [SQLAlchemy.reconfigure, Scoped.remove, AMap.find?_eraseKey]
  · intro k
    simp only [SQLAlchemy.reconfigure, Scoped.remove]
    exact AMap.find?_update f.session_options opts hN k
  · intro sc h
    simp only [SQLAlchemy.reconfigure] at h
    simp [Scoped.getOrCreate, SQLAlchemy.reconfigure, h]

/-- Witness for C5: reconfiguring a fresh facade with autocommit=true
overrides the stored autocommit=false for subsequently created sessions. -/
theorem c5_witness :
    AMap.find? (SQLAlchemy.reconfigure (mkFacade [] [("default", "u")] [])
        0 [("autocommit", Val.bool true)]).session_options "autocommit"
      = some (Val.bool true) := by
  have h := c5_reconfigure_merges (mkFacade [] [("default", "u")] [])
    0 [("autocommit", Val.bool true)] (by simp [AMap.keys])
  rw [h.2.1 "autocommit"]
  rfl

/-- Claim C9: when autoflush or autocommit is absent from the construction
options, the stored session option set defaults them to autoflush=true and
autocommit=false; a caller-supplied value for either key is kept
unchanged. The hypotheses record that both keys are accepted by the
underlying session constructor. -/
theorem c9_session_option_defaults (skw : List String)
    (options : List (String × Val))
    (haf : "autoflush" ∈ skw) (hac : "autocommit" ∈ skw) :
    (AMap.find? options "autoflush" = none →
      AMap.find? (setSessionOptions skw options).1 "autoflush"
        = some (Val.bool true)) ∧
    (AMap.find? options "autocommit" = none →
      AMap.find? (setSessionOptions skw options).1 "autocommit"
        = some (Val.bool false)) ∧
    (∀ v, AMap.find? options "autoflush" = some v →
      AMap.find? (setSessionOptions skw options).1 "autoflush" = some v) ∧
    (∀ v, AMap.find? options "autocommit" = some v →
      AMap.find? (setSessionOptions skw options).1 "autocommit" = some v) := by
  refine ⟨?_, ?_, ?_, ?_⟩
  · intro h
    rw [setSessionOptions_fst_find?]
    simp [haf, h]
  · intro h
    rw [setSessionOptions_fst_find?]
    simp [hac, h]
  · intro v hv
    rw [setSessionOptions_fst_find?]
    simp [haf, hv]
  · intro v hv
    rw [setSessionOptions_fst_find?]
    simp [hac, hv]

/-- Witness for C9: with an empty options bag the defaults appear; a
supplied autocommit value is kept. -/
theorem c9_witness :
    AMap.find? (setSessionOptions ["autoflush", "autocommit"] []).1
        "autoflush" = some (Val.bool true) ∧
    AMap.find? (setSessionOptions ["autoflush", "autocommit"]
        [("autocommit", Val.bool true)]).1 "autocommit"
      = some (Val.bool true) :=
  ⟨(c9_session_option_defaults ["autoflush", "autocommit"] []
      (by decide) (by decide)).1 rfl,
   (c9_session_option_defaults ["autoflush", "autocommit"]
      [("autocommit", Val.bool true)]
      (by decide) (by decide)).2.2.2 (Val.bool true) rfl⟩

end SqlaWrapper
